import Mathlib

/-!
Verification development for the UAVLogViewer backend core
(`backend/mavlink_parser/parser.py`, `backend/mavlink_parser/types.py`,
`backend/agent/flight_analyzer.py`).

The embedding models Python floats as exact rationals (ℚ), Python dicts
whose keys vary as association lists or `Option`-valued fields, and the
`hasattr`-guarded optional message fields as `Option` fields on the
message constructors.  Fallible Python code (the `try/except` in
`generate_summary`) is modelled in the `Except` monad.  Numeric string
formatting (`:.1f` etc.) is abstracted to `toString`; no claim depends
on the rendered digits.
-/

namespace UAVLog

/-! ## Small Python-style helpers -/

/-- Python `min(list)` on a nonempty list, via foldl (0 on empty; all call
sites guard nonemptiness as the source does). -/
def pyMinQ : List ℚ → ℚ
  | [] => 0
  | x :: xs => xs.foldl min x

/-- Python `max(list)` on a nonempty list, via foldl (0 on empty; all call
sites guard nonemptiness as the source does). -/
def pyMaxQ : List ℚ → ℚ
  | [] => 0
  | x :: xs => xs.foldl max x

/-- `np.mean` over a list of rationals. -/
def meanQ (l : List ℚ) : ℚ := l.sum / l.length

/-- `np.var` (population variance) over a list of rationals. -/
def varQ (l : List ℚ) : ℚ := (l.map (fun x => (x - meanQ l) ^ 2)).sum / l.length

/-- `np.trapz` with unit spacing: sum of averages of consecutive pairs. -/
def trapzQ (l : List ℚ) : ℚ := ((l.zip l.tail).map (fun p => (p.1 + p.2) / 2)).sum

/-- First-difference sequence: `[l[i] - l[i-1] for i in range(1, len(l))]`. -/
def diffsOf (l : List ℚ) : List ℚ := (l.zip l.tail).map (fun p => p.2 - p.1)

/-- Ordered association-list lookup for the `flight_stats` dict
(string keys, rational values). -/
def lookupStat (k : String) : List (String × ℚ) → Option ℚ
  | [] => none
  | (a, v) :: rest => if a = k then some v else lookupStat k rest

/-- Ordered association-list lookup for the integer-keyed enum tables
(`MAV_VEHICLE_TYPES`, `MAV_AUTOPILOT_TYPES`). -/
def lookupZS (k : ℤ) : List (ℤ × String) → Option String
  | [] => none
  | (a, v) :: rest => if a = k then some v else lookupZS k rest

/-- ASCII lowercasing of a text, modelling Python `str.lower()` on the
ASCII texts the severity keywords are drawn from. -/
def lowerChars (s : String) : List Char := s.toList.map Char.toLower

/-- Python `word in text` substring containment, over char lists. -/
def containsWord (word : String) (text : List Char) : Bool :=
  decide (List.IsInfix word.toList text)

/-- String prefix test used to recognise summary parts. -/
def strStarts (p s : String) : Bool := List.isPrefixOf p.data s.data

/-! ## Static tables (`backend/mavlink_parser/types.py`) -/

/-- `MULTICOPTER_MODES` from types.py. -/
def MULTICOPTER_MODES : List String :=
  ["STABILIZE", "ACRO", "ALT_HOLD", "LOITER", "AUTO", "LAND", "RTL",
   "DRIFT", "SPORT", "FLIP", "AUTOTUNE", "POSHOLD", "BRAKE", "THROW",
   "AVOID_ADSB", "GUIDED_NOGPS", "SMART_RTL", "FLOWHOLD", "FOLLOW",
   "ZIGZAG", "SYSTEMID", "AUTOROTATE", "AUTO_RTL"]

/-- `FIXED_WING_MODES` from types.py. -/
def FIXED_WING_MODES : List String :=
  ["MANUAL", "CIRCLE", "STABILIZE", "TRAINING", "ACRO", "FLY_BY_WIRE_A",
   "FLY_BY_WIRE_B", "CRUISE", "AUTOTUNE", "AUTO", "RTL", "LOITER",
   "TAKEOFF", "AVOID_ADSB", "GUIDED", "INITIALISING", "QSTABILIZE",
   "QHOVER", "QLOITER", "QLAND", "QRTL", "QAUTOTUNE", "QACRO", "THERMAL"]

/-- `ROVER_MODES` from types.py. -/
def ROVER_MODES : List String :=
  ["MANUAL", "ACRO", "LEARNING", "STEERING", "HOLD", "LOITER",
   "FOLLOW", "SIMPLE", "AUTO", "RTL", "SMART_RTL", "GUIDED", "INITIALISING"]

/-- `HELICOPTER_MODES` from types.py. -/
def HELICOPTER_MODES : List String :=
  ["STABILIZE", "ACRO", "ALT_HOLD", "AUTO", "GUIDED", "LOITER",
   "RTL", "CIRCLE", "LAND", "DRIFT", "SPORT", "FLIP", "AUTOTUNE",
   "POSHOLD", "BRAKE", "THROW", "AVOID_ADSB", "GUIDED_NOGPS",
   "SMART_RTL", "FLOWHOLD", "FOLLOW", "ZIGZAG", "SYSTEMID",
   "AUTOROTATE", "AUTO_RTL"]

/-- `MAV_VEHICLE_TYPES` from types.py (MAV_TYPE code to display name). -/
def MAV_VEHICLE_TYPES : List (ℤ × String) :=
  [(0, "Generic"), (1, "Fixed Wing"), (2, "Quadrotor"),
   (3, "Coaxial Helicopter"), (4, "Helicopter"), (5, "Antenna Tracker"),
   (6, "Ground Station"), (7, "Airship"), (8, "Free Balloon"),
   (9, "Rocket"), (10, "Ground Rover"), (11, "Surface Boat"),
   (12, "Submarine"), (13, "Hexarotor"), (14, "Octorotor"),
   (15, "Tricopter"), (16, "Flapping Wing"), (17, "Kite"),
   (18, "Onboard Controller"), (19, "VTOL Duorotor"), (20, "VTOL Quadrotor"),
   (21, "VTOL Tiltrotor"), (22, "VTOL Reserved 2"), (23, "VTOL Reserved 3"),
   (24, "VTOL Reserved 4"), (25, "VTOL Reserved 5"), (26, "Gimbal"),
   (27, "ADSB"), (28, "Parafoil"), (29, "Supercam"), (30, "FLARM"),
   (31, "Servo"), (32, "ODID"), (33, "Decarawave UWB"), (34, "Battery"),
   (35, "Parachute"), (36, "Log"), (37, "OSD"), (38, "IMU"),
   (39, "GPS"), (40, "Winch")]

/-- `MAV_AUTOPILOT_TYPES` from types.py. -/
def MAV_AUTOPILOT_TYPES : List (ℤ × String) :=
  [(0, "Generic"), (1, "Reserved"), (2, "SLUGS"), (3, "ArduPilot"),
   (4, "OpenPilot"), (5, "Generic Waypoints Only"),
   (6, "Generic Waypoints and Simple Navigation"), (7, "Generic Mission Full"),
   (8, "Invalid"), (9, "PPZ"), (10, "UDB"), (11, "FlexiPilot"),
   (12, "PX4"), (13, "SMACCMPilot"), (14, "AutoQuad"), (15, "ARMAZILA"),
   (16, "Aerob"), (17, "ASLUAV"), (18, "SmartAP"), (19, "AirRails"),
   (20, "RefleX")]

/-- CRITICAL-bucket keywords of `SEVERITY_KEYWORDS` (types.py). -/
def CRITICAL_KEYWORDS : List String := ["emergency", "critical", "fatal", "crash", "failsafe"]

/-- ERROR-bucket keywords of `SEVERITY_KEYWORDS` (types.py). -/
def ERROR_KEYWORDS : List String := ["error", "fail", "failed", "timeout"]

/-- WARNING-bucket keywords of `SEVERITY_KEYWORDS` (types.py). -/
def WARNING_KEYWORDS : List String := ["warning", "warn", "caution"]

/-- NOTICE-bucket keywords of `SEVERITY_KEYWORDS` (types.py). -/
def NOTICE_KEYWORDS : List String := ["notice", "armed", "disarmed", "mode"]

/-- `SEVERITY_KEYWORDS` from types.py, in dict insertion order:
CRITICAL (2), ERROR (3), WARNING (4), NOTICE (5). -/
def SEVERITY_KEYWORDS : List (ℤ × List String) :=
  [(2, CRITICAL_KEYWORDS), (3, ERROR_KEYWORDS),
   (4, WARNING_KEYWORDS), (5, NOTICE_KEYWORDS)]

/-- Python `any(word in text for word in keywords)`. -/
def anyKw (kws : List String) (text : List Char) : Bool :=
  kws.any (fun w => containsWord w text)

/-! ## Domain records (the per-domain dict shapes the parser builds) -/

/-- A GPS record as appended to `gps_data`.  `none` fields model absent
dict keys (GPA records have no `fix_type` or `altitude` key). -/
structure GPSRec where
  timestamp : ℚ
  fixType : Option ℤ := none
  satellites : Option ℚ := none
  hdop : Option ℚ := none
  vdop : Option ℚ := none
  altitude : Option ℚ := none
  relativeAlt : Option ℚ := none
  deriving DecidableEq

/-- An altitude record as appended to `altitude_data`. -/
structure AltRec where
  timestamp : ℚ
  relativeAlt : Option ℚ := none
  altitude : Option ℚ := none
  deriving DecidableEq

/-- A battery record as appended to `battery_data`. -/
structure BatRec where
  timestamp : ℚ
  voltage : Option ℚ := none
  current : Option ℚ := none
  temperature : Option ℚ := none
  deriving DecidableEq

/-- An RC record as appended to `rc_data` (RCOU records carry no
`rssi` key, hence the `Option`). -/
structure RCRec where
  timestamp : ℚ
  rssi : Option ℚ := none
  deriving DecidableEq

/-- An attitude record as appended to `attitude_data`. -/
structure AttRec where
  timestamp : ℚ
  roll : Option ℚ := none
  pitch : Option ℚ := none
  deriving DecidableEq

/-- A SYS_STATUS record as appended to `system_status`. -/
structure SysRec where
  timestamp : ℚ
  load : Option ℚ := none
  deriving DecidableEq

/-- An error record as appended to `errors` (severity is always a
number in stored records). -/
structure ErrorRecord where
  timestamp : ℚ
  severity : ℤ
  text : String
  deriving DecidableEq

/-- A mode-change record as appended to `modes`. -/
structure ModeRec where
  timestamp : ℚ
  mode : String
  modeNum : ℤ
  deriving DecidableEq

/-! ## Message model and extraction (`parser.py`) -/

/-- The decoded messages the modelled claims concern.  `timeUS` models
the optional dataflash `TimeUS` field, `logTs` the decoder-provided
`_timestamp`; `none` means the attribute is absent (`hasattr` false).
`Msg.other` stands for every message type not relevant to a claim. -/
inductive Msg where
  | heartbeat (timeUS logTs : Option ℚ) (mavType : ℤ) (autopilot : ℤ)
  | mode (timeUS logTs : Option ℚ) (modeName : Option String) (modeNum : Option ℤ)
  | msgText (timeUS logTs : Option ℚ) (message : Option String)
  | gpsDF (timeUS logTs : Option ℚ) (alt lat lng relAlt : Option ℚ)
      (status nsats : Option ℤ) (hdop vdop spd : Option ℚ)
  | gpa (timeUS logTs : Option ℚ) (hdop vdop sacc : Option ℚ)
  | other (timeUS logTs : Option ℚ)
  deriving DecidableEq

/-- The `TimeUS` attribute of a message, when present. -/
def Msg.timeUS : Msg → Option ℚ
  | .heartbeat t _ _ _ => t
  | .mode t _ _ _ => t
  | .msgText t _ _ => t
  | .gpsDF t _ _ _ _ _ _ _ _ _ _ => t
  | .gpa t _ _ _ _ => t
  | .other t _ => t

/-- The decoder `_timestamp` attribute of a message, when present. -/
def Msg.logTs : Msg → Option ℚ
  | .heartbeat _ t _ _ => t
  | .mode _ t _ _ => t
  | .msgText _ t _ => t
  | .gpsDF _ t _ _ _ _ _ _ _ _ _ => t
  | .gpa _ t _ _ _ => t
  | .other _ t => t

/-- Timestamp resolution (parser.py lines 78-84): `TimeUS / 1e6` if the
attribute exists, else the decoder `_timestamp`, else 0. -/
def resolveTimestamp (timeUS logTs : Option ℚ) : ℚ :=
  match timeUS with
  | some t => t / 1000000
  | none => logTs.getD 0

/-- Vehicle name for a HEARTBEAT type code:
`MAV_VEHICLE_TYPES.get(id, "Unknown Type id")` (parser.py line 113). -/
def mavVehicleName (t : ℤ) : String :=
  (lookupZS t MAV_VEHICLE_TYPES).getD ("Unknown Type " ++ toString t)

/-- Autopilot name for a HEARTBEAT autopilot code (parser.py line 118). -/
def mavAutopilotName (t : ℤ) : String :=
  (lookupZS t MAV_AUTOPILOT_TYPES).getD ("Unknown Autopilot " ++ toString t)

/-- `_determine_vehicle_type_from_mode` (parser.py lines 575-587):
ordered membership tests against the four static mode lists. -/
def determineVehicleTypeFromMode (mode : String) : String :=
  if mode ∈ MULTICOPTER_MODES then "Quadrotor"
  else if mode ∈ FIXED_WING_MODES then "Fixed Wing"
  else if mode ∈ ROVER_MODES then "Ground Rover"
  else if mode ∈ HELICOPTER_MODES then "Helicopter"
  else "Unknown"

/-- `_determine_message_severity` (parser.py lines 563-573): scan the
severity keyword buckets in dict order against the lowercased text;
first bucket with any matching keyword wins, else INFO (6). -/
def determineMessageSeverity (text : String) : ℤ :=
  let lower := lowerChars text
  match SEVERITY_KEYWORDS.find? (fun p => anyKw p.2 lower) with
  | some p => p.1
  | none => 6

/-- `_extract_message_data` for MSG messages (parser.py lines 531-539):
requires the `Message` attribute, severity is keyword-derived. -/
def extractMessageDataMSG (message : Option String) (ts : ℚ) : Option ErrorRecord :=
  match message with
  | some text => some ⟨ts, determineMessageSeverity text, text⟩
  | none => none

/-- `_extract_gps_data` for dataflash GPS/GPS2 messages (parser.py lines
294-312): requires Alt, Lat, Lng; `fix_type` defaults to 3 when `Status`
is absent, `satellites` to 0 when `NSats` is absent. -/
def extractGpsDF (ts : ℚ) (alt lat lng relAlt : Option ℚ)
    (status nsats : Option ℤ) (hdop vdop spd : Option ℚ) : Option GPSRec :=
  match alt, lat, lng with
  | some a, some _, some _ =>
      some { timestamp := ts
             fixType := some (status.getD 3)
             satellites := some ((nsats.getD 0 : ℤ) : ℚ)
             hdop := hdop
             vdop := vdop
             altitude := some a
             relativeAlt := some (relAlt.getD a) }
  | _, _, _ => (let _ := spd; none)

/-- `_extract_gps_data` for GPA messages (parser.py lines 314-323):
requires HDop or VDop; the produced record has no `fix_type` and no
`altitude` key, and `satellites` holds `SAcc` when present. -/
def extractGpsGPA (ts : ℚ) (hdop vdop sacc : Option ℚ) : Option GPSRec :=
  if hdop.isSome || vdop.isSome then
    some { timestamp := ts, hdop := hdop, vdop := vdop, satellites := sacc }
  else none

/-! ## The parse loop (`parse_file`, parser.py lines 35-283) -/

/-- The mutable per-parse accumulation state of `parse_file`. -/
structure ParseState where
  vehicle_type : String := "Unknown"
  autopilot_type : String := "Unknown"
  startTs : Option ℚ := none
  endTs : Option ℚ := none
  errors : List ErrorRecord := []
  altitude_data : List AltRec := []
  battery_data : List BatRec := []
  gps_data : List GPSRec := []
  rc_data : List RCRec := []
  attitude_data : List AttRec := []
  system_status : List SysRec := []
  modes : List ModeRec := []
  deriving DecidableEq

/-- One iteration of the message loop: resolve the timestamp, seed or
advance `start_timestamp`/`end_timestamp` only for positive timestamps
(lines 86-89), then dispatch on the message type (lines 98-251). -/
def step (s : ParseState) (m : Msg) : ParseState :=
  let ts := resolveTimestamp m.timeUS m.logTs
  let s1 := { s with
    startTs := if s.startTs = none ∧ 0 < ts then some ts else s.startTs
    endTs := if 0 < ts then some ts else s.endTs }
  match m with
  | .heartbeat _ _ mt ap =>
      { s1 with
        vehicle_type :=
          if s1.vehicle_type = "Unknown" then mavVehicleName mt else s1.vehicle_type
        autopilot_type :=
          if s1.autopilot_type = "Unknown" then mavAutopilotName ap else s1.autopilot_type }
  | .mode _ _ modeName modeNum =>
      match modeName with
      | some name =>
          let s2 := { s1 with modes := s1.modes ++ [(⟨ts, name, modeNum.getD 0⟩ : ModeRec)] }
          { s2 with
            vehicle_type :=
              if s2.vehicle_type = "Unknown" then determineVehicleTypeFromMode name
              else s2.vehicle_type }
      | none => s1
  | .msgText _ _ message =>
      match extractMessageDataMSG message ts with
      | some er => if er.severity ≤ 4 then { s1 with errors := s1.errors ++ [er] } else s1
      | none => s1
  | .gpsDF _ _ alt lat lng relAlt status nsats hdop vdop spd =>
      match extractGpsDF ts alt lat lng relAlt status nsats hdop vdop spd with
      | some gi =>
          let s2 :=
            if gi.altitude.isSome then
              { s1 with altitude_data :=
                  s1.altitude_data ++ [(⟨gi.timestamp, gi.relativeAlt, gi.altitude⟩ : AltRec)] }
            else s1
          { s2 with gps_data := s2.gps_data ++ [gi] }
      | none => s1
  | .gpa _ _ hdop vdop sacc =>
      match extractGpsGPA ts hdop vdop sacc with
      | some gi =>
          if gi.hdop.isSome || gi.vdop.isSome then
            { s1 with gps_data := s1.gps_data ++ [gi] }
          else s1
      | none => s1
  | .other _ _ => s1

/-! ## Flight statistics (`_analyze_flight_data`, parser.py lines 589-665) -/

/-- Altitude section of `_analyze_flight_data`. -/
def altSection (altitude_data : List AltRec) : List (String × ℚ) :=
  if altitude_data = [] then []
  else
    let altitudes := altitude_data.filterMap (·.relativeAlt)
    if altitudes = [] then []
    else
      [("max_altitude", pyMaxQ altitudes), ("min_altitude", pyMinQ altitudes),
       ("avg_altitude", meanQ altitudes), ("altitude_variance", varQ altitudes)]

/-- Battery section of `_analyze_flight_data`. -/
def batSection (battery_data : List BatRec) : List (String × ℚ) :=
  if battery_data = [] then []
  else
    let voltages := battery_data.filterMap (·.voltage)
    let currents := battery_data.filterMap (·.current)
    let temperatures := battery_data.filterMap (·.temperature)
    (if voltages = [] then []
     else
       [("max_battery_voltage", pyMaxQ voltages), ("min_battery_voltage", pyMinQ voltages),
        ("avg_battery_voltage", meanQ voltages),
        ("battery_voltage_drop", pyMaxQ voltages - pyMinQ voltages)]) ++
    (if currents = [] then []
     else
       [("max_current", pyMaxQ currents), ("avg_current", meanQ currents),
        ("total_current_consumed", if 1 < currents.length then trapzQ currents else 0)]) ++
    (if temperatures = [] then []
     else
       [("max_battery_temp", pyMaxQ temperatures), ("min_battery_temp", pyMinQ temperatures)])

/-- GPS quality metrics block of `_analyze_flight_data` (lines 630-639):
satellite and HDOP statistics. -/
def gpsQualityStats (gps_data : List GPSRec) : List (String × ℚ) :=
  let satellites := gps_data.filterMap (·.satellites)
  let hdops := gps_data.filterMap (·.hdop)
  (if satellites = [] then []
   else [("avg_satellites", meanQ satellites), ("min_satellites", pyMinQ satellites)]) ++
  (if hdops = [] then []
   else [("avg_hdop", meanQ hdops), ("max_hdop", pyMaxQ hdops)])

/-- GPS section of `_analyze_flight_data` (lines 623-639): note the
loss filter reads `d.get('fix_type', 0)` with default 0. -/
def gpsSection (gps_data : List GPSRec) : List (String × ℚ) :=
  if gps_data = [] then []
  else
    let gps_losses := gps_data.filter (fun d => decide (d.fixType.getD 0 < 3))
    [("gps_loss_events", (gps_losses.length : ℚ))] ++
    (if gps_losses = [] then []
     else [("first_gps_loss", pyMinQ (gps_losses.map (·.timestamp)))]) ++
    gpsQualityStats gps_data

/-- RC section of `_analyze_flight_data` (lines 642-646). -/
def rcSection (rc_data : List RCRec) : List (String × ℚ) :=
  if rc_data = [] then []
  else
    let rc_losses := rc_data.filter (fun d => decide (d.rssi.getD 255 < 50))
    [("rc_loss_events", (rc_losses.length : ℚ))] ++
    (if rc_losses = [] then []
     else [("first_rc_loss", pyMinQ (rc_losses.map (·.timestamp)))])

/-- Attitude section of `_analyze_flight_data` (lines 649-656). -/
def attSection (attitude_data : List AttRec) : List (String × ℚ) :=
  if attitude_data = [] then []
  else
    let rolls := attitude_data.map (fun d => d.roll.getD 0)
    let pitches := attitude_data.map (fun d => d.pitch.getD 0)
    (if rolls = [] then [] else [("max_roll", pyMaxQ (rolls.map abs))]) ++
    (if pitches = [] then [] else [("max_pitch", pyMaxQ (pitches.map abs))])

/-- System-status section of `_analyze_flight_data` (lines 659-663). -/
def sysSection (system_status : List SysRec) : List (String × ℚ) :=
  if system_status = [] then []
  else
    let loads := system_status.map (fun d => d.load.getD 0)
    if loads = [] then []
    else [("max_cpu_load", pyMaxQ loads / 10), ("avg_cpu_load", meanQ loads / 10)]

/-- `_analyze_flight_data`: the `stats` dict, as the ordered list of
key-value insertions. -/
def analyzeFlightData (altitude_data : List AltRec) (battery_data : List BatRec)
    (gps_data : List GPSRec) (rc_data : List RCRec) (attitude_data : List AttRec)
    (system_status : List SysRec) : List (String × ℚ) :=
  altSection altitude_data ++ batSection battery_data ++ gpsSection gps_data ++
  rcSection rc_data ++ attSection attitude_data ++ sysSection system_status

/-- Truthiness of an optional float (Python `if x and y:` on the
timestamps). -/
def truthyOptQ : Option ℚ → Bool
  | none => false
  | some q => q ≠ 0

/-- The result of `parse_file`: the fields of `parsed_data` the claims
concern.  `flight_duration`, `start_time`, `end_time` are `none` when the
corresponding dict keys were never set (lines 258-261 only run when both
timestamps are truthy). -/
structure ParsedData where
  vehicle_type : String
  autopilot_type : String
  start_time : Option ℚ
  end_time : Option ℚ
  flight_duration : Option ℚ
  flight_stats : List (String × ℚ)
  errors : List ErrorRecord
  altitude_data : List AltRec
  battery_data : List BatRec
  gps_data : List GPSRec
  rc_data : List RCRec
  attitude_data : List AttRec
  modes : List ModeRec
  deriving DecidableEq

/-- `parse_file` on an already-decoded message stream. -/
def parseFile (msgs : List Msg) : ParsedData :=
  let s := msgs.foldl step {}
  let hasSpan := truthyOptQ s.startTs && truthyOptQ s.endTs
  { vehicle_type := s.vehicle_type
    autopilot_type := s.autopilot_type
    start_time := if hasSpan then s.startTs else none
    end_time := if hasSpan then s.endTs else none
    flight_duration :=
      if hasSpan then some (s.endTs.getD 0 - s.startTs.getD 0) else none
    flight_stats :=
      analyzeFlightData s.altitude_data s.battery_data s.gps_data s.rc_data
        s.attitude_data s.system_status
    errors := s.errors
    altitude_data := s.altitude_data
    battery_data := s.battery_data
    gps_data := s.gps_data
    rc_data := s.rc_data
    attitude_data := s.attitude_data
    modes := s.modes }

/-! ## Policy A pattern extractor
(`detect_patterns_and_changes`, flight_analyzer.py lines 29-82) -/

/-- The `altitude_changes` payload. -/
structure DeltaPatterns where
  max_drop : ℚ
  max_rise : ℚ
  all_diffs : List ℚ
  deriving DecidableEq

/-- `altitude_changes` (lines 37-49): present only when at least two
non-null altitude values exist; diffs capped at the first 100,
max-rise/max-drop over the full diff sequence. -/
def altitudeChanges (altitude_data : List AltRec) : Option DeltaPatterns :=
  if altitude_data = [] then none
  else
    let altitudes := altitude_data.filterMap (·.altitude)
    if 1 < altitudes.length then
      let diffs := diffsOf altitudes
      some { max_drop := pyMinQ diffs, max_rise := pyMaxQ diffs,
             all_diffs := diffs.take 100 }
    else none

/-- `battery_voltage_changes` (lines 52-61). -/
def batteryVoltageChanges (battery_data : List BatRec) : Option DeltaPatterns :=
  if battery_data = [] then none
  else
    let voltages := battery_data.filterMap (·.voltage)
    if 1 < voltages.length then
      let diffs := diffsOf voltages
      some { max_drop := pyMinQ diffs, max_rise := pyMaxQ diffs,
             all_diffs := diffs.take 100 }
    else none

/-- `gps_fix_types` (lines 64-67): raw fix-type sequence capped at 100,
with `d.get('fix_type', 3)` default 3 here. -/
def gpsFixTypes (gps_data : List GPSRec) : Option (List ℤ) :=
  if gps_data = [] then none
  else some ((gps_data.map (fun d => d.fixType.getD 3)).take 100)

/-- `attitude_rolls` and `attitude_pitches` (lines 70-75). -/
def attitudeSeries (attitude_data : List AttRec) : Option (List ℚ × List ℚ) :=
  if attitude_data = [] then none
  else some ((attitude_data.filterMap (·.roll)).take 100,
             (attitude_data.filterMap (·.pitch)).take 100)

/-- `error_messages` (lines 78-80): the first 20 error texts. -/
def errorMessages (errors : List ErrorRecord) : Option (List String) :=
  if errors = [] then none
  else some ((errors.take 20).map (·.text))

/-! ## Summary formatter (`generate_summary`, parser.py lines 667-725) -/

/-- Dynamic Python values as they can appear in the `flight_data`
mapping handed to `generate_summary`: numbers, strings, or a datetime
(carrying its `strftime` rendering). -/
inductive Value where
  | num (q : ℚ)
  | str (s : String)
  | dt (rendered : String)
  deriving DecidableEq

/-- Python truthiness of a `Value`. -/
def Value.truthy : Value → Bool
  | .num q => q ≠ 0
  | .str s => s ≠ ""
  | .dt _ => true

/-- Python truthiness of an optional value (`dict.get` returning `None`
is falsy). -/
def truthyOptV : Option Value → Bool
  | none => false
  | some v => v.truthy

/-- Rendering of a value inside an f-string (plain interpolation). -/
def Value.render : Value → String
  | .num q => toString q
  | .str s => s
  | .dt s => s

/-- Python `v != "Unknown"`: false only for the equal string; a number
or datetime is always unequal to a string. -/
def pyNeUnknown : Value → Bool
  | .str s => s ≠ "Unknown"
  | _ => true

/-- Python `v > 0`: numeric comparison, or a `TypeError` (modelled as
`Except.error`) when `v` is a string or datetime. -/
def pyGtZero : Value → Except Unit Bool
  | .num q => .ok (decide (0 < q))
  | _ => .error ()

/-- Python `f-string` numeric formatting (`:.1f` and friends): raises
(`Except.error`) on a non-numeric value. -/
def pyFmtNum : Value → Except Unit String
  | .num q => .ok (toString q)
  | _ => .error ()

/-- The subset of the `flight_data` mapping `generate_summary` reads.
`none` models an absent dict key; the function applies the same
`dict.get` defaults the source does. -/
structure SummaryInput where
  flight_stats : List (String × Value) := []
  start_time : Option Value := none
  flight_duration : Option Value := none
  vehicle_type : Option Value := none
  autopilot_type : Option Value := none
  errors : List ErrorRecord := []
  deriving DecidableEq

/-- Association lookup in the dynamic `flight_stats` dict. -/
def lookupVal (k : String) : List (String × Value) → Option Value
  | [] => none
  | (a, v) :: rest => if a = k then some v else lookupVal k rest

/-- Date part (lines 684-689): truthy `start_time` only; a datetime is
rendered via `strftime`, a string passed through, anything else skipped. -/
def datePart (start_time : Option Value) : List String :=
  match start_time with
  | none => []
  | some v =>
      if v.truthy then
        match v with
        | .dt s => ["Date: " ++ s]
        | .str s => ["Date: " ++ s]
        | .num _ => []
      else []

/-- Duration part (lines 691-694): `duration > 0` can raise a
`TypeError` on a non-numeric duration; when positive, renders floor
minutes and seconds. -/
def durationPart (duration : Value) : Except Unit (List String) :=
  match duration with
  | .num q =>
      .ok (if 0 < q then
        ["Duration: " ++ toString ⌊q / 60⌋ ++ "m " ++ toString ⌊q - 60 * ⌊q / 60⌋⌋ ++ "s"]
      else [])
  | _ => .error ()

/-- Max-altitude part (lines 697-698): emitted only when
`stats.get("max_altitude")` is truthy; formatting a truthy non-number
raises. -/
def maxAltPart (stats : List (String × Value)) : Except Unit (List String) :=
  match lookupVal "max_altitude" stats with
  | none => .ok []
  | some v =>
      if v.truthy then do
        let f ← pyFmtNum v
        .ok ["Max Alt: " ++ f ++ "m"]
      else .ok []

/-- Battery range part (lines 700-701): emitted only when both voltage
bounds are truthy. -/
def battPart (stats : List (String × Value)) : Except Unit (List String) :=
  if truthyOptV (lookupVal "max_battery_voltage" stats) &&
     truthyOptV (lookupVal "min_battery_voltage" stats) then do
    let lo ← pyFmtNum ((lookupVal "min_battery_voltage" stats).getD (.num 0))
    let hi ← pyFmtNum ((lookupVal "max_battery_voltage" stats).getD (.num 0))
    .ok ["Battery: " ++ lo ++ "V-" ++ hi ++ "V"]
  else .ok []

/-- GPS satellites part (lines 703-704). -/
def satsPart (stats : List (String × Value)) : Except Unit (List String) :=
  match lookupVal "avg_satellites" stats with
  | none => .ok []
  | some v =>
      if v.truthy then do
        let f ← pyFmtNum v
        .ok ["GPS Sats: " ++ f ++ " avg"]
      else .ok []

/-- Issues block (lines 706-713): critical errors are severity ≤ 2,
warnings severity == 4; the critical part, when nonempty, suppresses
the warnings part (`if`/`elif`). -/
def issuesParts (errors : List ErrorRecord) : List String :=
  let critical_errors := errors.filter (fun e => decide (e.severity ≤ 2))
  let warnings := errors.filter (fun e => decide (e.severity = 4))
  if critical_errors ≠ [] then
    ["Critical: " ++ toString critical_errors.length ++ " errors"]
  else if warnings ≠ [] then
    ["Warnings: " ++ toString warnings.length]
  else []

/-- Loss-events part (lines 715-719): `stats.get(key, 0) > 0` can raise
on a non-numeric stored value. -/
def lossPart (label : String) (key : String) (stats : List (String × Value)) :
    Except Unit (List String) :=
  let v := (lookupVal key stats).getD (.num 0)
  do
    let b ← pyGtZero v
    .ok (if b then [label ++ v.render ++ " events"] else [])

/-- The body of `generate_summary` (the code inside the `try`). -/
def summaryBody (d : SummaryInput) : Except Unit String := do
  let stats := d.flight_stats
  let duration := d.flight_duration.getD (.num 0)
  let vehicle_type := d.vehicle_type.getD (.str "Unknown")
  let autopilot_type := d.autopilot_type.getD (.str "Unknown")
  let p1 := ["Vehicle: " ++ vehicle_type.render]
  let p2 := if pyNeUnknown autopilot_type then ["Autopilot: " ++ autopilot_type.render] else []
  let p3 := datePart d.start_time
  let p4 ← durationPart duration
  let p5 ← maxAltPart stats
  let p6 ← battPart stats
  let p7 ← satsPart stats
  let p8 := issuesParts d.errors
  let p9 ← lossPart "GPS Issues: " "gps_loss_events" stats
  let p10 ← lossPart "RC Issues: " "rc_loss_events" stats
  .ok (String.intercalate " | " (p1 ++ p2 ++ p3 ++ p4 ++ p5 ++ p6 ++ p7 ++ p8 ++ p9 ++ p10))

/-- `generate_summary`: the `try/except` wrapper, returning the fixed
fallback string on any exception. -/
def generateSummary (d : SummaryInput) : String :=
  match summaryBody d with
  | .ok s => s
  | .error _ => "Error generating flight summary"

/-! ## Helper lemmas -/

lemma foldl_max_mem (xs : List ℚ) (x : ℚ) : xs.foldl max x ∈ x :: xs := by
  induction xs generalizing x with
  | nil => simp
  | cons a as ih =>
      rw [List.foldl_cons]
      rcases List.mem_cons.1 (ih (max x a)) with h1 | h1
      · rcases max_choice x a with hx | hx
        · rw [h1, hx]; exact List.mem_cons_self _ _
        · rw [h1, hx]; exact List.mem_cons_of_mem _ (List.mem_cons_self _ _)
      · exact List.mem_cons_of_mem _ (List.mem_cons_of_mem _ h1)

lemma le_foldl_max_self (xs : List ℚ) (x : ℚ) : x ≤ xs.foldl max x := by
  induction xs generalizing x with
  | nil => exact le_refl x
  | cons a as ih => exact le_trans (le_max_left x a) (ih (max x a))

lemma le_foldl_max (xs : List ℚ) (x y : ℚ) (h : y ∈ x :: xs) : y ≤ xs.foldl max x := by
  induction xs generalizing x with
  | nil => simpa using le_of_eq (by simpa using h)
  | cons a as ih =>
      rw [List.foldl_cons]
      rcases List.mem_cons.1 h with h1 | h1
      · rw [h1]; exact le_trans (le_max_left x a) (le_foldl_max_self as (max x a))
      · rcases List.mem_cons.1 h1 with h2 | h2
        · rw [h2]; exact le_trans (le_max_right x a) (le_foldl_max_self as (max x a))
        · exact ih (max x a) (List.mem_cons_of_mem _ h2)

lemma foldl_min_mem (xs : List ℚ) (x : ℚ) : xs.foldl min x ∈ x :: xs := by
  induction xs generalizing x with
  | nil => simp
  | cons a as ih =>
      rw [List.foldl_cons]
      rcases List.mem_cons.1 (ih (min x a)) with h1 | h1
      · rcases min_choice x a with hx | hx
        · rw [h1, hx]; exact List.mem_cons_self _ _
        · rw [h1, hx]; exact List.mem_cons_of_mem _ (List.mem_cons_self _ _)
      · exact List.mem_cons_of_mem _ (List.mem_cons_of_mem _ h1)

lemma foldl_min_le_self (xs : List ℚ) (x : ℚ) : xs.foldl min x ≤ x := by
  induction xs generalizing x with
  | nil => exact le_refl x
  | cons a as ih => exact le_trans (ih (min x a)) (min_le_left x a)

lemma foldl_min_le (xs : List ℚ) (x y : ℚ) (h : y ∈ x :: xs) : xs.foldl min x ≤ y := by
  induction xs generalizing x with
  | nil =>
      have hx : y = x := by simpa using h
      simp [hx]
  | cons a as ih =>
      rw [List.foldl_cons]
      rcases List.mem_cons.1 h with h1 | h1
      · rw [h1]; exact le_trans (foldl_min_le_self as (min x a)) (min_le_left x a)
      · rcases List.mem_cons.1 h1 with h2 | h2
        · rw [h2]; exact le_trans (foldl_min_le_self as (min x a)) (min_le_right x a)
        · exact ih (min x a) (List.mem_cons_of_mem _ h2)

lemma pyMaxQ_mem {l : List ℚ} (h : l ≠ []) : pyMaxQ l ∈ l := by
  cases l with
  | nil => exact absurd rfl h
  | cons x xs => exact foldl_max_mem xs x

lemma le_pyMaxQ {l : List ℚ} {y : ℚ} (h : y ∈ l) : y ≤ pyMaxQ l := by
  cases l with
  | nil => simp at h
  | cons x xs => exact le_foldl_max xs x y h

lemma pyMinQ_mem {l : List ℚ} (h : l ≠ []) : pyMinQ l ∈ l := by
  cases l with
  | nil => exact absurd rfl h
  | cons x xs => exact foldl_min_mem xs x

lemma pyMinQ_le {l : List ℚ} {y : ℚ} (h : y ∈ l) : pyMinQ l ≤ y := by
  cases l with
  | nil => simp at h
  | cons x xs => exact foldl_min_le xs x y h

lemma lookupStat_append (k : String) (l1 l2 : List (String × ℚ)) :
    lookupStat k (l1 ++ l2) = ((lookupStat k l1).rec (lookupStat k l2) fun v => some v) := by
  induction l1 with
  | nil => simp [lookupStat]
  | cons p rest ih =>
      by_cases hp : p.1 = k
      · simp [lookupStat, hp]
      · simpa [lookupStat, hp] using ih

lemma lookupStat_none (k : String) (l : List (String × ℚ))
    (h : ∀ p ∈ l, p.1 ≠ k) : lookupStat k l = none := by
  induction l with
  | nil => rfl
  | cons p rest ih =>
      have hp := h p (by simp)
      simp only [lookupStat, if_neg hp]
      exact ih fun q hq => h q (by simp [hq])

lemma lookupStat_append_none {k : String} {l1 l2 : List (String × ℚ)}
    (h : lookupStat k l1 = none) :
    lookupStat k (l1 ++ l2) = lookupStat k l2 := by
  rw [lookupStat_append, h]

lemma lookupZS_mem {k : ℤ} {l : List (ℤ × String)} {v : String}
    (h : lookupZS k l = some v) : v ∈ l.map Prod.snd := by
  induction l with
  | nil => simp [lookupZS] at h
  | cons p rest ih =>
      by_cases hp : p.1 = k
      · simp only [lookupZS, if_pos hp, Option.some.injEq] at h
        simp [← h]
      · simp only [lookupZS, if_neg hp] at h
        simp [ih h]

lemma mavVehicleName_ne_unknown (t : ℤ) : mavVehicleName t ≠ "Unknown" := by
  unfold mavVehicleName
  cases h : lookupZS t MAV_VEHICLE_TYPES with
  | none =>
      intro hc
      have hl := congrArg String.length hc
      rw [Option.getD_none, String.length_append] at hl
      have h13 : ("Unknown Type ").length = 13 := by decide
      have h7 : ("Unknown").length = 7 := by decide
      rw [h13, h7] at hl
      omega
  | some v =>
      have hv : v ∈ MAV_VEHICLE_TYPES.map Prod.snd := lookupZS_mem h
      have hall : ∀ x ∈ MAV_VEHICLE_TYPES.map Prod.snd, x ≠ "Unknown" := by decide
      simpa using hall v hv

lemma isPrefixOf_append_self (a b : List Char) : List.isPrefixOf a (a ++ b) = true := by
  induction a with
  | nil => simp [List.isPrefixOf]
  | cons c cs ih => simp [List.isPrefixOf, ih]

lemma strStarts_append_self (p t : String) : strStarts p (p ++ t) = true := by
  unfold strStarts
  rw [String.data_append]
  exact isPrefixOf_append_self p.data t.data

lemma strStarts_false_head {p s : String} {c d : Char} {cs ds : List Char}
    (hp : p.data = c :: cs) (hs : s.data = d :: ds) (h : c ≠ d) :
    strStarts p s = false := by
  unfold strStarts
  rw [hp, hs]
  simp [List.isPrefixOf, h]

lemma critStr_data (t : String) :
    (("Critical: " ++ t) ++ " errors").data = 'C' :: ("ritical: ".data ++ t.data ++ " errors".data) := by
  rw [String.data_append, String.data_append]
  have h : ("Critical: ").data = 'C' :: ("ritical: ").data := by decide
  rw [h]
  simp

lemma warnStr_data (t : String) :
    ("Warnings: " ++ t).data = 'W' :: ("arnings: ".data ++ t.data) := by
  rw [String.data_append]
  have h : ("Warnings: ").data = 'W' :: ("arnings: ").data := by decide
  rw [h]
  simp

lemma strStarts_crit_of_critStr (t : String) :
    strStarts "Critical:" (("Critical: " ++ t) ++ " errors") = true := by
  have h : ("Critical: " ++ t) ++ " errors" = "Critical:" ++ ((" " ++ t) ++ " errors") := by
    have hsplit : ("Critical: " : String) = "Critical:" ++ " " := by decide
    rw [hsplit, String.append_assoc, String.append_assoc,
      ← String.append_assoc " " t " errors"]
  rw [h]
  exact strStarts_append_self _ _

lemma strStarts_warn_of_warnStr (t : String) :
    strStarts "Warnings:" ("Warnings: " ++ t) = true := by
  have h : ("Warnings: " ++ t) = "Warnings:" ++ (" " ++ t) := by
    have hsplit : ("Warnings: " : String) = "Warnings:" ++ " " := by decide
    rw [hsplit, String.append_assoc]
  rw [h]
  exact strStarts_append_self _ _

lemma strStarts_warn_critStr (t : String) :
    strStarts "Warnings:" (("Critical: " ++ t) ++ " errors") = false := by
  have h1 : ("Warnings:" : String).data = 'W' :: ("arnings:").data := by decide
  exact strStarts_false_head h1 (critStr_data t) (by decide)

lemma strStarts_crit_warnStr (t : String) :
    strStarts "Critical:" ("Warnings: " ++ t) = false := by
  have h1 : ("Critical:" : String).data = 'C' :: ("ritical:").data := by decide
  exact strStarts_false_head h1 (warnStr_data t) (by decide)

lemma step_vehicle_type_frozen (s : ParseState) (m : Msg)
    (h : s.vehicle_type ≠ "Unknown") : (step s m).vehicle_type = s.vehicle_type := by
  cases m with
  | heartbeat tU lT mt ap => simp [step, h]
  | mode tU lT modeName modeNum =>
      cases modeName with
      | some name => simp [step, h]
      | none => simp [step]
  | msgText tU lT message =>
      cases message with
      | some text => simp only [step, extractMessageDataMSG]; split <;> rfl
      | none => rfl
  | gpsDF tU lT alt lat lng relAlt status nsats hdop vdop spd =>
      cases alt <;> cases lat <;> cases lng <;>
        simp only [step, extractGpsDF] <;> split <;> rfl
  | gpa tU lT hdop vdop sacc =>
      simp only [step, extractGpsGPA]
      split <;> (try split) <;> rfl
  | other tU lT => rfl

lemma foldl_vehicle_type_frozen (msgs : List Msg) (s : ParseState)
    (h : s.vehicle_type ≠ "Unknown") :
    (msgs.foldl step s).vehicle_type = s.vehicle_type := by
  induction msgs generalizing s with
  | nil => rfl
  | cons m rest ih =>
      rw [List.foldl_cons]
      rw [ih (step s m) (by rw [step_vehicle_type_frozen s m h]; exact h)]
      exact step_vehicle_type_frozen s m h

lemma step_heartbeat_vehicle_type (s : ParseState) (tU lT : Option ℚ) (mt ap : ℤ) :
    (step s (.heartbeat tU lT mt ap)).vehicle_type =
      (if s.vehicle_type = "Unknown" then mavVehicleName mt else s.vehicle_type) := by
  simp [step]

lemma step_heartbeat_vehicle_type_ne (s : ParseState) (tU lT : Option ℚ) (mt ap : ℤ) :
    (step s (.heartbeat tU lT mt ap)).vehicle_type ≠ "Unknown" := by
  rw [step_heartbeat_vehicle_type]
  split
  · exact mavVehicleName_ne_unknown mt
  · assumption

lemma severity_of_critical {txt : String}
    (h : anyKw CRITICAL_KEYWORDS (lowerChars txt) = true) :
    determineMessageSeverity txt = 2 := by
  simp [determineMessageSeverity, SEVERITY_KEYWORDS, List.find?, h]

lemma severity_of_error {txt : String}
    (h1 : anyKw CRITICAL_KEYWORDS (lowerChars txt) = false)
    (h2 : anyKw ERROR_KEYWORDS (lowerChars txt) = true) :
    determineMessageSeverity txt = 3 := by
  simp [determineMessageSeverity, SEVERITY_KEYWORDS, List.find?, h1, h2]

lemma severity_of_warning {txt : String}
    (h1 : anyKw CRITICAL_KEYWORDS (lowerChars txt) = false)
    (h2 : anyKw ERROR_KEYWORDS (lowerChars txt) = false)
    (h3 : anyKw WARNING_KEYWORDS (lowerChars txt) = true) :
    determineMessageSeverity txt = 4 := by
  simp [determineMessageSeverity, SEVERITY_KEYWORDS, List.find?, h1, h2, h3]

lemma severity_of_notice {txt : String}
    (h1 : anyKw CRITICAL_KEYWORDS (lowerChars txt) = false)
    (h2 : anyKw ERROR_KEYWORDS (lowerChars txt) = false)
    (h3 : anyKw WARNING_KEYWORDS (lowerChars txt) = false)
    (h4 : anyKw NOTICE_KEYWORDS (lowerChars txt) = true) :
    determineMessageSeverity txt = 5 := by
  simp [determineMessageSeverity, SEVERITY_KEYWORDS, List.find?, h1, h2, h3, h4]

lemma severity_of_no_match {txt : String}
    (h1 : anyKw CRITICAL_KEYWORDS (lowerChars txt) = false)
    (h2 : anyKw ERROR_KEYWORDS (lowerChars txt) = false)
    (h3 : anyKw WARNING_KEYWORDS (lowerChars txt) = false)
    (h4 : anyKw NOTICE_KEYWORDS (lowerChars txt) = false) :
    determineMessageSeverity txt = 6 := by
  simp [determineMessageSeverity, SEVERITY_KEYWORDS, List.find?, h1, h2, h3, h4]

lemma lookupStat_none_of_keys {k : String} {keys : List String} {l : List (String × ℚ)}
    (hl : ∀ p ∈ l, p.1 ∈ keys) (hk : k ∉ keys) : lookupStat k l = none :=
  lookupStat_none k l (fun p hp he => hk (he ▸ hl p hp))

lemma altSection_keys (a : List AltRec) :
    ∀ p ∈ altSection a, p.1 ∈
      (["max_altitude", "min_altitude", "avg_altitude", "altitude_variance"] : List String) := by
  intro p hp
  simp only [altSection] at hp
  split at hp
  · exact absurd hp (List.not_mem_nil p)
  · split at hp
    · exact absurd hp (List.not_mem_nil p)
    · simp only [List.mem_cons, List.not_mem_nil, or_false] at hp
      rcases hp with rfl | rfl | rfl | rfl <;> simp

lemma batSection_keys (b : List BatRec) :
    ∀ p ∈ batSection b, p.1 ∈
      (["max_battery_voltage", "min_battery_voltage", "avg_battery_voltage",
        "battery_voltage_drop", "max_current", "avg_current", "total_current_consumed",
        "max_battery_temp", "min_battery_temp"] : List String) := by
  intro p hp
  simp only [batSection] at hp
  split at hp
  · exact absurd hp (List.not_mem_nil p)
  · simp only [List.mem_append] at hp
    rcases hp with (hp | hp) | hp
    · split at hp
      · exact absurd hp (List.not_mem_nil p)
      · simp only [List.mem_cons, List.not_mem_nil, or_false] at hp
        rcases hp with rfl | rfl | rfl | rfl <;> simp
    · split at hp
      · exact absurd hp (List.not_mem_nil p)
      · simp only [List.mem_cons, List.not_mem_nil, or_false] at hp
        rcases hp with rfl | rfl | rfl <;> simp
    · split at hp
      · exact absurd hp (List.not_mem_nil p)
      · simp only [List.mem_cons, List.not_mem_nil, or_false] at hp
        rcases hp with rfl | rfl <;> simp

lemma rcSection_keys (r : List RCRec) :
    ∀ p ∈ rcSection r, p.1 ∈ (["rc_loss_events", "first_rc_loss"] : List String) := by
  intro p hp
  simp only [rcSection] at hp
  split at hp
  · exact absurd hp (List.not_mem_nil p)
  · simp only [List.cons_append, List.nil_append, List.mem_cons] at hp
    rcases hp with rfl | hp
    · simp
    · split at hp
      · exact absurd hp (List.not_mem_nil p)
      · simp only [List.mem_cons, List.not_mem_nil, or_false] at hp
        rcases hp with rfl <;> simp

lemma attSection_keys (t : List AttRec) :
    ∀ p ∈ attSection t, p.1 ∈ (["max_roll", "max_pitch"] : List String) := by
  intro p hp
  simp only [attSection] at hp
  split at hp
  · exact absurd hp (List.not_mem_nil p)
  · simp only [List.mem_append] at hp
    rcases hp with hp | hp <;>
      · split at hp
        · exact absurd hp (List.not_mem_nil p)
        · simp only [List.mem_cons, List.not_mem_nil, or_false] at hp
          rcases hp with rfl <;> simp

lemma sysSection_keys (y : List SysRec) :
    ∀ p ∈ sysSection y, p.1 ∈ (["max_cpu_load", "avg_cpu_load"] : List String) := by
  intro p hp
  simp only [sysSection] at hp
  split at hp
  · exact absurd hp (List.not_mem_nil p)
  · split at hp
    · exact absurd hp (List.not_mem_nil p)
    · simp only [List.mem_cons, List.not_mem_nil, or_false] at hp
      rcases hp with rfl | rfl <;> simp

/-! ## Claim theorems -/

/-- C7 counterexample: the four static mode-name sets are NOT pairwise
disjoint: STABILIZE belongs to the multicopter, fixed-wing and
helicopter sets at once (the lookup order, not disjointness, decides
the resulting vehicle type). -/
theorem c7_counterexample :
    "STABILIZE" ∈ MULTICOPTER_MODES ∧ "STABILIZE" ∈ FIXED_WING_MODES ∧
    "STABILIZE" ∈ HELICOPTER_MODES ∧
    determineVehicleTypeFromMode "STABILIZE" = "Quadrotor" := by
  decide

/-- C7 (amended): the four mode-name sets overlap, and every mode name
still determines exactly one vehicle type because
`_determine_vehicle_type_from_mode` tests the sets in a fixed order
(multicopter, fixed-wing, rover, helicopter), first match winning. -/
theorem c7_mode_lookup_order_amended (name : String) :
    (name ∈ MULTICOPTER_MODES → determineVehicleTypeFromMode name = "Quadrotor") ∧
    (name ∉ MULTICOPTER_MODES → name ∈ FIXED_WING_MODES →
      determineVehicleTypeFromMode name = "Fixed Wing") ∧
    (name ∉ MULTICOPTER_MODES → name ∉ FIXED_WING_MODES → name ∈ ROVER_MODES →
      determineVehicleTypeFromMode name = "Ground Rover") ∧
    (name ∉ MULTICOPTER_MODES → name ∉ FIXED_WING_MODES → name ∉ ROVER_MODES →
      name ∈ HELICOPTER_MODES → determineVehicleTypeFromMode name = "Helicopter") ∧
    (name ∉ MULTICOPTER_MODES → name ∉ FIXED_WING_MODES → name ∉ ROVER_MODES →
      name ∉ HELICOPTER_MODES → determineVehicleTypeFromMode name = "Unknown") := by
  refine ⟨fun h1 => ?_, fun h1 h2 => ?_, fun h1 h2 h3 => ?_,
    fun h1 h2 h3 h4 => ?_, fun h1 h2 h3 h4 => ?_⟩
  · simp [determineVehicleTypeFromMode, h1]
  · simp [determineVehicleTypeFromMode, h1, h2]
  · simp [determineVehicleTypeFromMode, h1, h2, h3]
  · simp [determineVehicleTypeFromMode, h1, h2, h3, h4]
  · simp [determineVehicleTypeFromMode, h1, h2, h3, h4]

/-- C7 witness: STABILIZE (a multicopter-set member also present in two
other sets) resolves to Quadrotor, and QHOVER (fixed-wing set only)
resolves to Fixed Wing. -/
theorem c7_mode_lookup_order_amended_witness :
    determineVehicleTypeFromMode "STABILIZE" = "Quadrotor" ∧
    determineVehicleTypeFromMode "QHOVER" = "Fixed Wing" :=
  ⟨(c7_mode_lookup_order_amended "STABILIZE").1 (by decide),
   (c7_mode_lookup_order_amended "QHOVER").2.1 (by decide) (by decide)⟩

/-- C10: the summary omits an optional stat part when the stored value
is falsy, not only when the key is absent: a present `max_altitude` of
0.0 suppresses the max-altitude part, and a 0.0 on either battery
voltage bound suppresses the battery-range part. -/
theorem c10_falsy_stats_omitted (stats : List (String × Value)) :
    (lookupVal "max_altitude" stats = some (Value.num 0) →
      maxAltPart stats = Except.ok []) ∧
    (lookupVal "min_battery_voltage" stats = some (Value.num 0) →
      battPart stats = Except.ok []) ∧
    (lookupVal "max_battery_voltage" stats = some (Value.num 0) →
      battPart stats = Except.ok []) := by
  refine ⟨fun h => ?_, fun h => ?_, fun h => ?_⟩
  · simp [maxAltPart, h, Value.truthy]
  · simp [battPart, h, truthyOptV, Value.truthy]
  · simp [battPart, h, truthyOptV, Value.truthy]

/-- C10 witness: concrete stats dicts carrying the keys with value 0.0
produce no max-altitude part and no battery part. -/
theorem c10_falsy_stats_omitted_witness :
    maxAltPart [("max_altitude", Value.num 0)] = Except.ok [] ∧
    battPart [("max_battery_voltage", Value.num 7),
      ("min_battery_voltage", Value.num 0)] = Except.ok [] :=
  ⟨(c10_falsy_stats_omitted [("max_altitude", Value.num 0)]).1 (by decide),
   (c10_falsy_stats_omitted [("max_battery_voltage", Value.num 7),
      ("min_battery_voltage", Value.num 0)]).2.1 (by decide)⟩

/-- C4 counterexample: for the empty message stream the parse result
does NOT carry a `flight_duration` entry at all (the key is only set
when both timestamps are truthy), so `flight_duration == 0` fails as a
statement about the stored mapping. -/
theorem c4_counterexample :
    (parseFile []).flight_duration = none ∧
    (parseFile []).flight_duration ≠ some 0 := by
  decide

/-- C4 (amended): for the empty message stream the parse result has
vehicle_type "Unknown", empty flight_stats, every per-domain sequence
empty, and no start/end/duration entries — so a `get` of
`flight_duration` with default 0 yields 0. -/
theorem c4_empty_stream_amended :
    parseFile [] =
      { vehicle_type := "Unknown", autopilot_type := "Unknown",
        start_time := none, end_time := none, flight_duration := none,
        flight_stats := [], errors := [], altitude_data := [],
        battery_data := [], gps_data := [], rc_data := [],
        attitude_data := [], modes := [] } ∧
    (parseFile []).flight_duration.getD 0 = 0 := by
  decide

/-- C8: `generate_summary` returns a string for every input mapping:
either the composed summary when the body raises no exception, or the
fixed fallback string when it does; an input with no optional stats at
all composes without raising, and a non-numeric `flight_duration`
exercises the exception path into the fallback. -/
theorem c8_summary_never_raises (d : SummaryInput) :
    ((∃ s, summaryBody d = Except.ok s ∧ generateSummary d = s) ∨
      (summaryBody d = Except.error () ∧
        generateSummary d = "Error generating flight summary")) ∧
    summaryBody {} = Except.ok "Vehicle: Unknown" ∧
    (summaryBody { flight_duration := some (Value.str "soon") } = Except.error () ∧
      generateSummary { flight_duration := some (Value.str "soon") } =
        "Error generating flight summary") := by
  refine ⟨?_, by rfl, ⟨by rfl, by rfl⟩⟩
  cases h : summaryBody d with
  | ok s => exact Or.inl ⟨s, rfl, by simp [generateSummary, h]⟩
  | error e => exact Or.inr ⟨by simp, by simp [generateSummary, h]⟩

/-- C2: vehicle-type resolution is first-wins: once vehicle_type is any
value other than "Unknown", no later message of any kind changes it
(per-step and for a whole remaining stream); a HEARTBEAT always leaves
vehicle_type non-"Unknown", fixing it for the rest of the parse; a MODE
message seen while still "Unknown" resolves through the mode lookup, and
a mode name in none of the four sets leaves vehicle_type "Unknown" so
later MODE messages can still resolve it. -/
theorem c2_vehicle_type_first_wins (pre : ParseState) (m : Msg) (msgs : List Msg) :
    (pre.vehicle_type ≠ "Unknown" →
      (step pre m).vehicle_type = pre.vehicle_type ∧
      ((m :: msgs).foldl step pre).vehicle_type = pre.vehicle_type) ∧
    (∀ tU lT mt ap,
      ((Msg.heartbeat tU lT mt ap :: msgs).foldl step pre).vehicle_type =
          (step pre (Msg.heartbeat tU lT mt ap)).vehicle_type ∧
      (step pre (Msg.heartbeat tU lT mt ap)).vehicle_type ≠ "Unknown") ∧
    (∀ tU lT name mn, pre.vehicle_type = "Unknown" →
      (step pre (Msg.mode tU lT (some name) mn)).vehicle_type =
        determineVehicleTypeFromMode name) ∧
    (∀ name, name ∉ MULTICOPTER_MODES → name ∉ FIXED_WING_MODES →
      name ∉ ROVER_MODES → name ∉ HELICOPTER_MODES →
      determineVehicleTypeFromMode name = "Unknown") := by
  refine ⟨fun h => ⟨step_vehicle_type_frozen pre m h, ?_⟩,
    fun tU lT mt ap => ⟨?_, step_heartbeat_vehicle_type_ne pre tU lT mt ap⟩,
    fun tU lT name mn h => ?_, fun name h1 h2 h3 h4 => ?_⟩
  · rw [List.foldl_cons,
      foldl_vehicle_type_frozen msgs (step pre m)
        (by rw [step_vehicle_type_frozen pre m h]; exact h)]
    exact step_vehicle_type_frozen pre m h
  · rw [List.foldl_cons]
    exact foldl_vehicle_type_frozen msgs _ (step_heartbeat_vehicle_type_ne pre tU lT mt ap)
  · simp [step, h]
  · simp [determineVehicleTypeFromMode, h1, h2, h3, h4]

/-- C2 witness: a state already resolved to Quadrotor is unchanged by a
fixed-wing HEARTBEAT and by the rest of the stream, and an unlisted mode
name resolves to "Unknown". -/
theorem c2_vehicle_type_first_wins_witness :
    (step { vehicle_type := "Quadrotor" } (Msg.heartbeat none none 1 3)).vehicle_type =
        "Quadrotor" ∧
    (([Msg.heartbeat none none 1 3, Msg.mode none none (some "MANUAL") none].foldl step
        { vehicle_type := "Quadrotor" })).vehicle_type = "Quadrotor" ∧
    determineVehicleTypeFromMode "NOT_A_MODE" = "Unknown" := by
  have h := c2_vehicle_type_first_wins { vehicle_type := "Quadrotor" }
    (Msg.heartbeat none none 1 3) [Msg.mode none none (some "MANUAL") none]
  exact ⟨(h.1 (by decide)).1, (h.1 (by decide)).2,
    h.2.2.2 "NOT_A_MODE" (by decide) (by decide) (by decide) (by decide)⟩

lemma step_ts_unchanged (s : ParseState) (m : Msg)
    (h : resolveTimestamp m.timeUS m.logTs ≤ 0) :
    (step s m).startTs = s.startTs ∧ (step s m).endTs = s.endTs := by
  have hlt : ¬(0 < resolveTimestamp m.timeUS m.logTs) := not_lt.2 h
  cases m with
  | heartbeat tU lT mt ap =>
      simp only [Msg.timeUS, Msg.logTs] at hlt
      constructor <;> simp [step, Msg.timeUS, Msg.logTs, hlt]
  | mode tU lT mn mnum =>
      simp only [Msg.timeUS, Msg.logTs] at hlt
      cases mn <;> constructor <;> simp [step, Msg.timeUS, Msg.logTs, hlt]
  | msgText tU lT msg =>
      simp only [Msg.timeUS, Msg.logTs] at hlt
      cases msg with
      | none =>
          constructor <;> simp [step, Msg.timeUS, Msg.logTs, extractMessageDataMSG, hlt]
      | some txt =>
          by_cases hs : determineMessageSeverity txt ≤ 4 <;>
            constructor <;>
            simp [step, Msg.timeUS, Msg.logTs, extractMessageDataMSG, hlt, hs]
  | gpsDF tU lT alt lat lng relAlt status nsats hdop vdop spd =>
      simp only [Msg.timeUS, Msg.logTs] at hlt
      cases alt <;> cases lat <;> cases lng <;> constructor <;>
        simp [step, Msg.timeUS, Msg.logTs, extractGpsDF, hlt]
  | gpa tU lT hdop vdop sacc =>
      simp only [Msg.timeUS, Msg.logTs] at hlt
      by_cases hh : (hdop.isSome || vdop.isSome : Bool) = true <;>
        constructor <;>
        simp [step, Msg.timeUS, Msg.logTs, extractGpsGPA, hlt, hh]
  | other tU lT =>
      simp only [Msg.timeUS, Msg.logTs] at hlt
      constructor <;> simp [step, Msg.timeUS, Msg.logTs, hlt]

/-- C6: the resolved timestamp is TimeUS / 1e6 when the TimeUS attribute
exists, else the decoder timestamp when that exists, else 0; and a
message whose resolved timestamp is zero or negative never seeds or
updates start_timestamp or end_timestamp. -/
theorem c6_timestamp_resolution (s : ParseState) (m : Msg) (tU lT : Option ℚ) :
    (∀ t, tU = some t → resolveTimestamp tU lT = t / 1000000) ∧
    (tU = none → ∀ t, lT = some t → resolveTimestamp tU lT = t) ∧
    (tU = none → lT = none → resolveTimestamp tU lT = 0) ∧
    (resolveTimestamp m.timeUS m.logTs ≤ 0 →
      (step s m).startTs = s.startTs ∧ (step s m).endTs = s.endTs) := by
  refine ⟨fun t ht => ?_, fun h1 t ht => ?_, fun h1 h2 => ?_,
    fun h => step_ts_unchanged s m h⟩
  · rw [ht]; rfl
  · rw [h1, ht]; rfl
  · rw [h1, h2]; rfl

/-- C6 witness: a TimeUS of 3 resolves to 3/1e6 microseconds-to-seconds,
the decoder fallback passes through, and a message with neither
attribute (resolved timestamp 0) leaves both timestamps unseeded. -/
theorem c6_timestamp_resolution_witness :
    resolveTimestamp (some 3) none = 3 / 1000000 ∧
    resolveTimestamp none (some 7) = 7 ∧
    (step {} (Msg.other none none)).startTs = none ∧
    (step {} (Msg.other none none)).endTs = none := by
  have h := c6_timestamp_resolution {} (Msg.other none none) (some 3) none
  have h2 := c6_timestamp_resolution {} (Msg.other none none) none (some 7)
  have h3 := (c6_timestamp_resolution {} (Msg.other none none) none none).2.2.2
    (by decide)
  exact ⟨h.1 3 rfl, h2.2.1 rfl 7 rfl, h3.1, h3.2⟩

/-- C3: a free-text MSG status message is stored in `errors` exactly
when its keyword-derived severity is at most 4; the severity is the
first matching bucket scanning critical, error, warning, notice buckets
over the lowercased text, defaulting to Info (6); a text containing
"critical" is retained with severity 2; a text matching no keyword is
discarded. -/
theorem c3_msg_severity_admission (s : ParseState) (tU lT : Option ℚ) (txt : String) :
    ((step s (Msg.msgText tU lT (some txt))).errors =
      if determineMessageSeverity txt ≤ 4 then
        s.errors ++ [⟨resolveTimestamp tU lT, determineMessageSeverity txt, txt⟩]
      else s.errors) ∧
    (anyKw CRITICAL_KEYWORDS (lowerChars txt) = true →
      determineMessageSeverity txt = 2) ∧
    (anyKw CRITICAL_KEYWORDS (lowerChars txt) = false →
      anyKw ERROR_KEYWORDS (lowerChars txt) = true →
      determineMessageSeverity txt = 3) ∧
    (anyKw CRITICAL_KEYWORDS (lowerChars txt) = false →
      anyKw ERROR_KEYWORDS (lowerChars txt) = false →
      anyKw WARNING_KEYWORDS (lowerChars txt) = true →
      determineMessageSeverity txt = 4) ∧
    (anyKw CRITICAL_KEYWORDS (lowerChars txt) = false →
      anyKw ERROR_KEYWORDS (lowerChars txt) = false →
      anyKw WARNING_KEYWORDS (lowerChars txt) = false →
      anyKw NOTICE_KEYWORDS (lowerChars txt) = true →
      determineMessageSeverity txt = 5) ∧
    (anyKw CRITICAL_KEYWORDS (lowerChars txt) = false →
      anyKw ERROR_KEYWORDS (lowerChars txt) = false →
      anyKw WARNING_KEYWORDS (lowerChars txt) = false →
      anyKw NOTICE_KEYWORDS (lowerChars txt) = false →
      determineMessageSeverity txt = 6 ∧
      (step s (Msg.msgText tU lT (some txt))).errors = s.errors) ∧
    (List.IsInfix ("critical".toList) (lowerChars txt) →
      (step s (Msg.msgText tU lT (some txt))).errors =
        s.errors ++ [⟨resolveTimestamp tU lT, 2, txt⟩]) := by
  have hstep : (step s (Msg.msgText tU lT (some txt))).errors =
      if determineMessageSeverity txt ≤ 4 then
        s.errors ++ [⟨resolveTimestamp tU lT, determineMessageSeverity txt, txt⟩]
      else s.errors := by
    by_cases hs : determineMessageSeverity txt ≤ 4 <;>
      simp [step, Msg.timeUS, Msg.logTs, extractMessageDataMSG, hs]
  refine ⟨hstep, fun h => severity_of_critical h,
    fun h1 h2 => severity_of_error h1 h2,
    fun h1 h2 h3 => severity_of_warning h1 h2 h3,
    fun h1 h2 h3 h4 => severity_of_notice h1 h2 h3 h4,
    fun h1 h2 h3 h4 => ⟨severity_of_no_match h1 h2 h3 h4, ?_⟩,
    fun hinf => ?_⟩
  · rw [hstep, severity_of_no_match h1 h2 h3 h4]
    norm_num
  · have hcw : containsWord "critical" (lowerChars txt) = true := by
      simp only [containsWord, decide_eq_true_eq]
      exact hinf
    have hc : anyKw CRITICAL_KEYWORDS (lowerChars txt) = true := by
      simp only [anyKw, List.any_eq_true]
      exact ⟨"critical", by simp [CRITICAL_KEYWORDS], hcw⟩
    rw [hstep, severity_of_critical hc]
    norm_num

/-- C3 witness: "Battery critical" is classified severity 2 and stored,
while "all systems nominal" matches no keyword, is classified Info and
discarded. -/
theorem c3_msg_severity_admission_witness :
    determineMessageSeverity "Battery critical" = 2 ∧
    determineMessageSeverity "all systems nominal" = 6 ∧
    (step {} (Msg.msgText none (some 1) (some "all systems nominal"))).errors =
      ParseState.errors {} := by
  have h1 := (c3_msg_severity_admission {} none (some 1) "Battery critical").2.1
    (by decide)
  have h2 := (c3_msg_severity_admission {} none (some 1) "all systems nominal").2.2.2.2.2.1
    (by decide) (by decide) (by decide) (by decide)
  exact ⟨h1, h2.1, h2.2⟩

/-- C9: in the issues block of the generated summary, a part starting
"Critical:" appears exactly when at least one stored error has severity
at most 2, a part starting "Warnings:" appears only when there are zero
such critical errors and at least one severity-4 error, and the two
parts never both appear. -/
theorem c9_critical_warning_exclusive (errs : List ErrorRecord) :
    ((issuesParts errs).any (strStarts "Critical:") = true ↔
      0 < (errs.filter (fun e => decide (e.severity ≤ 2))).length) ∧
    ((issuesParts errs).any (strStarts "Warnings:") = true →
      (errs.filter (fun e => decide (e.severity ≤ 2))).length = 0 ∧
      0 < (errs.filter (fun e => decide (e.severity = 4))).length) ∧
    ¬((issuesParts errs).any (strStarts "Critical:") = true ∧
      (issuesParts errs).any (strStarts "Warnings:") = true) := by
  by_cases hC : errs.filter (fun e => decide (e.severity ≤ 2)) = []
  · by_cases hW : errs.filter (fun e => decide (e.severity = 4)) = []
    · have hp : issuesParts errs = [] := by simp [issuesParts, hC, hW]
      simp [hp, hC]
    · have hp : issuesParts errs =
          ["Warnings: " ++ toString (errs.filter (fun e => decide (e.severity = 4))).length] := by
        simp [issuesParts, hC, hW]
      refine ⟨?_, fun _ => ⟨by rw [hC]; rfl, List.length_pos.2 hW⟩, ?_⟩
      · simp [hp, strStarts_crit_warnStr, hC]
      · simp [hp, strStarts_crit_warnStr]
  · have hp : issuesParts errs =
        [("Critical: " ++
          toString (errs.filter (fun e => decide (e.severity ≤ 2))).length) ++ " errors"] := by
      simp [issuesParts, hC]
    refine ⟨?_, fun hw => ?_, ?_⟩
    · simp [hp, strStarts_crit_of_critStr, List.length_pos, hC]
    · rw [hp] at hw
      simp [strStarts_warn_critStr] at hw
    · rw [hp]
      simp [strStarts_warn_critStr]

/-- C9 witness: one severity-1 error yields the Critical part (and the
iff instantiates), and one severity-4 error alone yields the Warnings
part with zero critical errors. -/
theorem c9_critical_warning_exclusive_witness :
    ((issuesParts [⟨0, 4, "low battery"⟩]).any (strStarts "Warnings:") = true) ∧
    (([(⟨0, 4, "low battery"⟩ : ErrorRecord)].filter
        (fun e => decide (e.severity ≤ 2))).length = 0 ∧
      0 < ([(⟨0, 4, "low battery"⟩ : ErrorRecord)].filter
        (fun e => decide (e.severity = 4))).length) := by
  have hw : (issuesParts [⟨0, 4, "low battery"⟩]).any (strStarts "Warnings:") = true := by
    decide
  exact ⟨hw, (c9_critical_warning_exclusive [⟨0, 4, "low battery"⟩]).2.1 hw⟩

/-- C5: for an altitude series with at least two non-null altitude
values, the Policy-A extractor returns the consecutive first-difference
sequence truncated to its first 100 elements, with max_rise the maximum
and max_drop the minimum of the full difference sequence; the series
10, 15, 60 yields differences 5, 45; and the error payload is the first
at-most-20 error texts. -/
theorem c5_policyA_patterns (data : List AltRec) (errs : List ErrorRecord)
    (h : 1 < (data.filterMap (fun d => d.altitude)).length) :
    (∃ p, altitudeChanges data = some p ∧
      p.all_diffs = (diffsOf (data.filterMap (fun d => d.altitude))).take 100 ∧
      p.max_rise ∈ diffsOf (data.filterMap (fun d => d.altitude)) ∧
      (∀ x ∈ diffsOf (data.filterMap (fun d => d.altitude)), x ≤ p.max_rise) ∧
      p.max_drop ∈ diffsOf (data.filterMap (fun d => d.altitude)) ∧
      (∀ x ∈ diffsOf (data.filterMap (fun d => d.altitude)), p.max_drop ≤ x)) ∧
    altitudeChanges [⟨0, none, some 10⟩, ⟨2, none, some 15⟩, ⟨3, none, some 60⟩] =
      some ⟨5, 45, [5, 45]⟩ ∧
    (errs ≠ [] → ∃ l, errorMessages errs = some l ∧
      l = (errs.take 20).map (fun e => e.text) ∧ l.length ≤ 20) := by
  refine ⟨?_, ?_, fun hne => ?_⟩
  · have hdata : data ≠ [] := by
      intro hd
      rw [hd] at h
      simp at h
    have hdne : diffsOf (data.filterMap (fun d => d.altitude)) ≠ [] := by
      cases hl : data.filterMap (fun d => d.altitude) with
      | nil => rw [hl] at h; simp at h
      | cons a t =>
          cases t with
          | nil => rw [hl] at h; simp at h
          | cons b t2 => simp [diffsOf]
    have hac : altitudeChanges data =
        some ⟨pyMinQ (diffsOf (data.filterMap (fun d => d.altitude))),
          pyMaxQ (diffsOf (data.filterMap (fun d => d.altitude))),
          (diffsOf (data.filterMap (fun d => d.altitude))).take 100⟩ := by
      simp [altitudeChanges, hdata, h]
    exact ⟨_, hac, rfl, pyMaxQ_mem hdne, fun x hx => le_pyMaxQ hx,
      pyMinQ_mem hdne, fun x hx => pyMinQ_le hx⟩
  · simp only [altitudeChanges, diffsOf, pyMinQ, pyMaxQ, List.filterMap_cons,
      List.filterMap_nil]
    norm_num
    exact fun hc => absurd hc (by decide)
  · refine ⟨(errs.take 20).map (fun e => e.text), by simp [errorMessages, hne], rfl, ?_⟩
    rw [List.length_map, List.length_take]
    exact min_le_left _ _

/-- C5 witness: the scenario series 10, 15, 60 satisfies the two-value
hypothesis, and a singleton error list yields its single text. -/
theorem c5_policyA_patterns_witness :
    (1 < (([⟨0, none, some 10⟩, ⟨2, none, some 15⟩,
        ⟨3, none, some 60⟩] : List AltRec).filterMap (fun d => d.altitude)).length) ∧
    (∃ l, errorMessages [(⟨1, 2, "failsafe on"⟩ : ErrorRecord)] = some l ∧
      l = ([(⟨1, 2, "failsafe on"⟩ : ErrorRecord)].take 20).map (fun e => e.text) ∧
      l.length ≤ 20) :=
  ⟨by decide,
   (c5_policyA_patterns [⟨0, none, some 10⟩, ⟨2, none, some 15⟩, ⟨3, none, some 60⟩]
      [⟨1, 2, "failsafe on"⟩] (by decide)).2.2 (by decide)⟩

lemma gpsQualityStats_keys (g : List GPSRec) :
    ∀ p ∈ gpsQualityStats g, p.1 ∈
      (["avg_satellites", "min_satellites", "avg_hdop", "max_hdop"] : List String) := by
  intro p hp
  simp only [gpsQualityStats] at hp
  simp only [List.mem_append] at hp
  rcases hp with hp | hp <;>
    · split at hp
      · exact absurd hp (List.not_mem_nil p)
      · simp only [List.mem_cons, List.not_mem_nil, or_false] at hp
        rcases hp with rfl | rfl <;> simp

/-- C1 counterexample: a GPA-produced GPS record has no fix_type key,
and the aggregator counts it as a loss (`d.get('fix_type', 0) < 3`
defaults to 0), while the claim (default 3, not a loss) predicts zero
loss events for the same sequence. -/
theorem c1_counterexample :
    (parseFile [Msg.gpa none (some 5) (some 1) none none]).gps_data =
      [{ timestamp := 5, hdop := some 1 }] ∧
    lookupStat "gps_loss_events"
      (parseFile [Msg.gpa none (some 5) (some 1) none none]).flight_stats = some 1 ∧
    ((parseFile [Msg.gpa none (some 5) (some 1) none none]).gps_data.filter
      (fun d => decide (d.fixType.getD 3 < 3))).length = 0 ∧
    lookupStat "gps_loss_events"
        (parseFile [Msg.gpa none (some 5) (some 1) none none]).flight_stats ≠
      some (((parseFile [Msg.gpa none (some 5) (some 1) none none]).gps_data.filter
        (fun d => decide (d.fixType.getD 3 < 3))).length : ℚ) := by
  refine ⟨by decide, by decide, by decide, by decide⟩

/-- C1 (amended): for a nonempty GPS record sequence, gps_loss_events
equals the number of records whose fix_type defaulted to 0 when absent
is below 3 (so a record with no fix_type key counts as a loss); with
zero such records the stat is 0 and no first_gps_loss key exists;
otherwise first_gps_loss is the minimum timestamp among the loss
records. -/
theorem c1_gps_loss_events_amended (alt : List AltRec) (bat : List BatRec)
    (gps : List GPSRec) (rc : List RCRec) (att : List AttRec) (sys : List SysRec)
    (hne : gps ≠ []) :
    (lookupStat "gps_loss_events" (analyzeFlightData alt bat gps rc att sys) =
      some (((gps.filter (fun d => decide (d.fixType.getD 0 < 3))).length : ℚ))) ∧
    (gps.filter (fun d => decide (d.fixType.getD 0 < 3)) = [] →
      lookupStat "first_gps_loss" (analyzeFlightData alt bat gps rc att sys) = none) ∧
    (gps.filter (fun d => decide (d.fixType.getD 0 < 3)) ≠ [] →
      ∃ t, lookupStat "first_gps_loss" (analyzeFlightData alt bat gps rc att sys) = some t ∧
        t ∈ (gps.filter (fun d => decide (d.fixType.getD 0 < 3))).map (fun d => d.timestamp) ∧
        ∀ u ∈ (gps.filter (fun d => decide (d.fixType.getD 0 < 3))).map (fun d => d.timestamp),
          t ≤ u) := by
  have hA1 : lookupStat "gps_loss_events" (altSection alt) = none :=
    lookupStat_none_of_keys (altSection_keys alt) (by decide)
  have hB1 : lookupStat "gps_loss_events" (batSection bat) = none :=
    lookupStat_none_of_keys (batSection_keys bat) (by decide)
  have hA2 : lookupStat "first_gps_loss" (altSection alt) = none :=
    lookupStat_none_of_keys (altSection_keys alt) (by decide)
  have hB2 : lookupStat "first_gps_loss" (batSection bat) = none :=
    lookupStat_none_of_keys (batSection_keys bat) (by decide)
  have hQ2 : lookupStat "first_gps_loss" (gpsQualityStats gps) = none :=
    lookupStat_none_of_keys (gpsQualityStats_keys gps) (by decide)
  have hR2 : lookupStat "first_gps_loss" (rcSection rc) = none :=
    lookupStat_none_of_keys (rcSection_keys rc) (by decide)
  have hT2 : lookupStat "first_gps_loss" (attSection att) = none :=
    lookupStat_none_of_keys (attSection_keys att) (by decide)
  have hS2 : lookupStat "first_gps_loss" (sysSection sys) = none :=
    lookupStat_none_of_keys (sysSection_keys sys) (by decide)
  have hg : gpsSection gps =
      ("gps_loss_events",
        ((gps.filter (fun d => decide (d.fixType.getD 0 < 3))).length : ℚ)) ::
      ((if gps.filter (fun d => decide (d.fixType.getD 0 < 3)) = [] then []
        else [("first_gps_loss",
          pyMinQ ((gps.filter (fun d => decide (d.fixType.getD 0 < 3))).map
            (fun d => d.timestamp)))]) ++ gpsQualityStats gps) := by
    simp [gpsSection, hne]
  have key1 : lookupStat "gps_loss_events" (analyzeFlightData alt bat gps rc att sys) =
      lookupStat "gps_loss_events"
        (gpsSection gps ++ (rcSection rc ++ (attSection att ++ sysSection sys))) := by
    unfold analyzeFlightData
    simp only [List.append_assoc]
    rw [lookupStat_append_none hA1, lookupStat_append_none hB1]
  have key2 : lookupStat "first_gps_loss" (analyzeFlightData alt bat gps rc att sys) =
      lookupStat "first_gps_loss"
        (gpsSection gps ++ (rcSection rc ++ (attSection att ++ sysSection sys))) := by
    unfold analyzeFlightData
    simp only [List.append_assoc]
    rw [lookupStat_append_none hA2, lookupStat_append_none hB2]
  refine ⟨?_, fun hL => ?_, fun hL => ?_⟩
  · rw [key1, hg]
    simp [lookupStat]
  · rw [key2, hg, if_pos hL]
    simp only [List.nil_append, List.cons_append, lookupStat]
    rw [if_neg (by decide : ¬("gps_loss_events" = "first_gps_loss"))]
    simp only [List.append_eq]
    rw [lookupStat_append_none hQ2, lookupStat_append_none hR2,
      lookupStat_append_none hT2]
    exact hS2
  · rw [key2, hg]
    rw [if_neg hL]
    refine ⟨pyMinQ ((gps.filter (fun d => decide (d.fixType.getD 0 < 3))).map
      (fun d => d.timestamp)), ?_, ?_, ?_⟩
    · simp [lookupStat]
    · exact pyMinQ_mem (fun hme => hL (List.map_eq_nil_iff.1 hme))
    · exact fun u hu => pyMinQ_le hu

/-- C1 witness: a two-record sequence with one fix_type-3 record and one
fix_type-0 record at timestamp 9 yields one loss event with
first_gps_loss 9. -/
theorem c1_gps_loss_events_amended_witness :
    lookupStat "gps_loss_events"
      (analyzeFlightData [] [] [{ timestamp := 4, fixType := some 3 },
        { timestamp := 9, fixType := some 0 }] [] [] []) = some 1 ∧
    (∃ t, lookupStat "first_gps_loss"
        (analyzeFlightData [] [] [{ timestamp := 4, fixType := some 3 },
          { timestamp := 9, fixType := some 0 }] [] [] []) = some t ∧
      t ∈ ([({ timestamp := 4, fixType := some 3 } : GPSRec),
          { timestamp := 9, fixType := some 0 }].filter
            (fun d => decide (d.fixType.getD 0 < 3))).map (fun d => d.timestamp) ∧
      ∀ u ∈ ([({ timestamp := 4, fixType := some 3 } : GPSRec),
          { timestamp := 9, fixType := some 0 }].filter
            (fun d => decide (d.fixType.getD 0 < 3))).map (fun d => d.timestamp),
        t ≤ u) := by
  have h := c1_gps_loss_events_amended [] [] [{ timestamp := 4, fixType := some 3 },
    { timestamp := 9, fixType := some 0 }] [] [] [] (by decide)
  exact ⟨h.1, h.2.2 (by decide)⟩

end UAVLog
